import Mathlib

/-!
Verification of the session/turn-buffering and quota-resolution subsystem of the
`agentcore-public-stack` backend, as a shallow embedding of the Python sources:

* `src/agents/strands_agent/session/turn_based_session_manager.py`
* `src/agents/strands_agent/session/local_session_buffer.py`
* `src/agents/strands_agent/quota/resolver.py`

Python dictionaries become structures, lists become `List`, mutable attribute
updates become explicit state passing, exceptions become `Except` (the error
payload carries the object state at the moment the exception escapes, since the
Python object survives the raise), and wall-clock time (`datetime.utcnow()`)
becomes an explicit `now : Nat` parameter in seconds.
-/

/-- A content block of a message.  The source only ever inspects whether a
block is a dict containing the key `"toolUse"`; the spec's data model gives the
tagged union `text | tool_use | tool_result`. -/
inductive ContentBlock where
  | text (s : String)
  | toolUse (id : String)
  | toolResult (id : String)
deriving DecidableEq

/-- `isinstance(item, dict) and "toolUse" in item` from
`TurnBasedSessionManager._should_flush_turn`. -/
def hasToolUseKey : ContentBlock → Bool
  | .toolUse _ => true
  | _ => false

/-- A buffered message dict as built by `append_message`:
`{"message_id": ..., "role": ..., "content": ...}`.  `message_id` is `none`
when the key is absent. -/
structure Message where
  message_id : Option String
  role : String
  content : List ContentBlock
deriving DecidableEq

/-- A record persisted to the turn-store: `_flush_turn` strips the message down
to `{"role": ..., "content": ...}` before calling `create_message`. -/
structure StoredMsg where
  role : String
  content : List ContentBlock
deriving DecidableEq

/-- The remote turn-store collaborator (AgentCore Memory behind
`AgentCoreMemorySessionManager`): an ordered record list plus the
UUID-to-sequential-id mappings written by `_store_uuid_mapping`.  The two
`fail` flags model a store whose write (`create_message`) or read
(`list_messages`) raises. -/
structure TurnStore where
  messages : List StoredMsg
  uuidMappings : List (Nat × String)
  failWrites : Bool
  failReads : Bool
deriving DecidableEq

/-- `base_manager.create_message`: appends one record, or raises. -/
def createMessage (s : TurnStore) (r : StoredMsg) : Except Unit TurnStore :=
  if s.failWrites then .error ()
  else .ok { s with messages := s.messages ++ [r] }

/-- Python truthiness for an optional string (`if uuid_from_merged:` and the
"include message_id if it exists" merge step): `None` and `""` are falsy. -/
def truthyId : Option String → Option String
  | some s => if s = "" then none else some s
  | none => none

/-- State of `TurnBasedSessionManager`: the turn buffer, the role of the last
buffered message, the flush threshold, the cancellation flag, and the wrapped
store. -/
structure ManagerState where
  pending_messages : List Message
  last_message_role : Option String
  batch_size : Nat
  cancelled : Bool
  store : TurnStore
deriving DecidableEq

/-- `TurnBasedSessionManager.__init__` (default `batch_size=5`): empty buffer,
no last role, not cancelled. -/
def initManager (batch_size : Nat) (store : TurnStore) : ManagerState :=
  { pending_messages := []
    last_message_role := none
    batch_size := batch_size
    cancelled := false
    store := store }

/-- `TurnBasedSessionManager._should_flush_turn`: flush when a user message
arrives after an assistant message, or when an assistant message carries no
`toolUse` block. -/
def shouldFlushTurn (st : ManagerState) (m : Message) : Bool :=
  if m.role = "user" ∧ st.last_message_role = some "assistant" then true
  else if m.role = "assistant" ∧ ¬ (m.content.any hasToolUseKey) then true
  else false

/-- `TurnBasedSessionManager._merge_turn_messages`: empty buffer yields
nothing; a single message is returned as-is; otherwise role and `message_id`
come from the first message (`message_id` only when truthy) and the content
blocks of all buffered messages are concatenated in order. -/
def mergeTurnMessages : List Message → Option Message
  | [] => none
  | [m] => some m
  | m :: rest =>
    some { message_id := truthyId m.message_id
           role := m.role
           content := (m :: rest).flatMap Message.content }

/-- `TurnBasedSessionManager._get_latest_message_id`: `list_messages` then
`len(messages)` when non-empty (1-indexed, per its docstring); any exception
from the store is caught and yields `None`. -/
def getLatestMessageId (s : TurnStore) : Option Nat :=
  if s.failReads then none
  else if s.messages.isEmpty then none
  else some s.messages.length

/-- `TurnBasedSessionManager._flush_turn`.  On a successful write the buffer is
cleared and the store-derived sequential id returned; the UUID mapping is
recorded when both the merged UUID and the id are truthy.  An exception from
`create_message` is NOT caught: it escapes with the buffer intact (the
`.error` payload is the manager state at the raise). -/
def flushTurn (st : ManagerState) : Except ManagerState (Option Nat × ManagerState) :=
  if st.pending_messages.isEmpty then .ok (none, st)
  else
    match mergeTurnMessages st.pending_messages with
    | some merged =>
      match createMessage st.store { role := merged.role, content := merged.content } with
      | .error _ => .error st
      | .ok store2 =>
        let sid := getLatestMessageId store2
        let store3 :=
          match truthyId merged.message_id, sid with
          | some uuid, some n =>
            if n ≠ 0 then { store2 with uuidMappings := store2.uuidMappings ++ [(n, uuid)] }
            else store2
          | _, _ => store2
        .ok (sid, { st with pending_messages := [], store := store3 })
    | none =>
      .ok (none, { st with pending_messages := [] })

/-- `TurnBasedSessionManager.add_message`: flush the previous turn at a
boundary, append the message, record its role, then flush again if the buffer
has reached `batch_size`.  Exceptions from either flush propagate. -/
def addMessage (st : ManagerState) (m : Message) : Except ManagerState ManagerState :=
  let step1 : Except ManagerState ManagerState :=
    if shouldFlushTurn st m then
      match flushTurn st with
      | .error e => .error e
      | .ok (_, st') => .ok st'
    else .ok st
  match step1 with
  | .error e => .error e
  | .ok st1 =>
    let st2 := { st1 with
                 pending_messages := st1.pending_messages ++ [m]
                 last_message_role := some m.role }
    if st2.pending_messages.length ≥ st2.batch_size then
      match flushTurn st2 with
      | .error e => .error e
      | .ok (_, st3) => .ok st3
    else .ok st2

/-- `TurnBasedSessionManager.flush`: `return self._flush_turn()`. -/
def managerFlush (st : ManagerState) : Except ManagerState (Option Nat × ManagerState) :=
  flushTurn st

/-- Constant standing in for the nondeterministic `uuid.uuid4()` fallback in
`append_message`. -/
def fallbackUuid : String := "00000000-0000-0000-0000-000000000000"

/-- `TurnBasedSessionManager.append_message`: dropped silently when
`cancelled`; otherwise a falsy `message_id` is replaced by a generated UUID,
the message dict is built and handed to `add_message`. -/
def appendMessage (st : ManagerState) (role : String) (content : List ContentBlock)
    (message_id : Option String) : Except ManagerState ManagerState :=
  if st.cancelled then .ok st
  else
    let mid : String :=
      match truthyId message_id with
      | some s => s
      | none => fallbackUuid
    addMessage st { message_id := some mid, role := role, content := content }

/-- `cancel()` on the session manager: sets the flag, nothing else. -/
def cancelManager (st : ManagerState) : ManagerState :=
  { st with cancelled := true }

/-- Fold a sequence of `add_message` calls, propagating any escaped store
exception. -/
def addAll (st : ManagerState) : List Message → Except ManagerState ManagerState
  | [] => .ok st
  | m :: ms =>
    match addMessage st m with
    | .error e => .error e
    | .ok st' => addAll st' ms

/-- State of `LocalSessionBuffer`: its own pending buffer and cancellation
flag over a `FileSessionManager` modelled as a plain record list (its writes
are wrapped in a per-message `try/except` in the source, so a local write
never escapes; we model the local store as infallible). -/
structure LocalBufferState where
  pending_messages : List Message
  cancelled : Bool
  batch_size : Nat
  store : List StoredMsg
deriving DecidableEq

/-- Modelled from the spec: `LocalSessionBuffer._get_latest_message_id` reads
the local file storage (`apis.app_api.storage.paths`, not part of the sources
under verification) and returns the highest stored message number, "1-indexed
or None if unavailable" per its docstring; modelled as the record count. -/
def localGetLatestMessageId (store : List StoredMsg) : Option Nat :=
  if store.isEmpty then none else some store.length

/-- `LocalSessionBuffer.flush`: no merge — one `base_manager.append_message`
call per buffered message, each carrying that message's own role and content,
then the buffer is cleared and the latest stored id returned. -/
def localFlush (st : LocalBufferState) : Option Nat × LocalBufferState :=
  if st.pending_messages.isEmpty then (none, st)
  else
    let store' := st.store ++ st.pending_messages.map (fun m => { role := m.role, content := m.content : StoredMsg })
    (localGetLatestMessageId store', { st with pending_messages := [], store := store' })

/-- Python `str.split(sep)` on a list of characters: splitting at every
occurrence of `sep`; `"".split(',') = [""]` and a trailing separator yields a
trailing empty element. -/
def splitCharAux (sep : Char) : List Char → List Char → List (List Char)
  | [], acc => [acc.reverse]
  | c :: cs, acc =>
    if c = sep then acc.reverse :: splitCharAux sep cs []
    else splitCharAux sep cs (c :: acc)

/-- Python `str.split(sep)` for a single-character separator. -/
def pySplit (sep : Char) (s : String) : List String :=
  (splitCharAux sep s.data []).map List.asString

/-- Python `str.strip()`: remove leading and trailing whitespace. -/
def pyStrip (s : String) : String :=
  (((s.data.dropWhile Char.isWhitespace).reverse.dropWhile Char.isWhitespace).reverse).asString

/-- Python `str.startswith(pre)` (codepoint-based, like Python). -/
def pyStartsWith (s pre : String) : Bool :=
  pre.data.isPrefixOf s.data

/-- Python `str.endswith(suf)` (codepoint-based, like Python). -/
def pyEndsWith (s suf : String) : Bool :=
  suf.data.reverse.isPrefixOf s.data.reverse

/-- Python slicing `s[n:]` (codepoint-based, like Python). -/
def pyDropChars (s : String) (n : Nat) : String :=
  (s.data.drop n).asString

/-- The first four branches of `QuotaResolver._matches_email_domain` (falsy
pattern, exact match, `*.` wildcard, `regex:` prefix), which are the only ones
reachable on the comma-free elements the comma branch recurses into.  `rm`
models `re.match` including its `except re.error` guard: an invalid regex
yields `false`. -/
def matchesSingle (rm : String → String → Bool) (user_domain pattern : String) : Bool :=
  if pattern = "" then false
  else if pattern = user_domain then true
  else if pyStartsWith pattern "*." then
    let base_domain := pyDropChars pattern 2
    user_domain = base_domain || pyEndsWith user_domain ("." ++ base_domain)
  else if pyStartsWith pattern "regex:" then rm (pyDropChars pattern 6) user_domain
  else false

/-- `QuotaResolver._matches_email_domain`: falsy pattern → false; exact match;
`*.base` wildcard (equal to base or ending in `.base`); `regex:` via `rm`;
comma-separated list → any whitespace-stripped element matches, via a
recursive call per element.  Since `str.split(',')` elements never contain a
comma, the recursive call only ever exercises the non-comma branches, which is
`matchesSingle` (see `matchesEmailDomain_eq_single`). -/
def matchesEmailDomain (rm : String → String → Bool) (user_domain pattern : String) : Bool :=
  if pattern = "" then false
  else if pattern = user_domain then true
  else if pyStartsWith pattern "*." then
    let base_domain := pyDropChars pattern 2
    user_domain = base_domain || pyEndsWith user_domain ("." ++ base_domain)
  else if pyStartsWith pattern "regex:" then rm (pyDropChars pattern 6) user_domain
  else if ',' ∈ pattern.data then
    ((pySplit ',' pattern).map pyStrip).any (fun d => matchesSingle rm user_domain d)
  else false

/-- Authenticated user model, from `apis/shared/auth/models.py`. -/
structure User where
  email : String
  user_id : String
  name : String
  roles : List String
  picture : Option String
deriving DecidableEq

/-- A monthly cost limit: a finite amount or `float('inf')` (used by the
`unlimited` override branch). -/
inductive CostLimit where
  | finite (q : ℚ)
  | infinite
deriving DecidableEq

/-- Modelled from the spec: `QuotaTier` from `quota/models.py` (not among the
sources) — `{tier_id, monthly_cost_limit: float|infinity, daily_cost_limit:
optional float, action_on_limit: enum{warn,block}, soft_limit_percentage:
float, enabled: bool}` plus the bookkeeping fields the resolver populates. -/
structure QuotaTier where
  tier_id : String
  tier_name : String
  monthly_cost_limit : CostLimit
  daily_cost_limit : Option ℚ
  action_on_limit : String
  soft_limit_percentage : ℚ
  enabled : Bool
  created_at : String
  updated_at : String
  created_by : String
deriving DecidableEq

/-- Modelled from the spec: `QuotaAssignment` from `quota/models.py` (not
among the sources) — `{assignment_type, tier_id, priority: int, enabled: bool,
jwt_role: optional string, email_domain: optional string}`. -/
structure QuotaAssignment where
  assignment_type : String
  tier_id : String
  priority : Int
  enabled : Bool
  jwt_role : Option String
  email_domain : Option String
deriving DecidableEq

/-- Modelled from the spec: `QuotaOverride` from `quota/models.py` (not among
the sources) — an override record with `override_type` either `"unlimited"`
or `"custom_limit"` and optional explicit limits. -/
structure QuotaOverride where
  override_id : String
  override_type : String
  monthly_cost_limit : Option ℚ
  daily_cost_limit : Option ℚ
  created_at : String
  created_by : String
deriving DecidableEq

/-- `ResolvedQuota` — the resolver's output. -/
structure ResolvedQuota where
  user_id : String
  tier : QuotaTier
  matched_by : String
  assignment : Option QuotaAssignment
  override : Option QuotaOverride
deriving DecidableEq

/-- Modelled from the spec: the quota-store collaborator
(`QuotaRepository`, not among the sources) — the five read operations the
resolver consumes, as pure functions. -/
structure QuotaRepository where
  get_active_override : String → Option QuotaOverride
  query_user_assignment : String → Option QuotaAssignment
  query_role_assignments : String → List QuotaAssignment
  list_assignments_by_type : String → Bool → List QuotaAssignment
  get_tier : String → Option QuotaTier

/-- State of `QuotaResolver`: the repository, the TTL in seconds, the per-user
resolution cache and the domain-assignment-list cache.  The cache is an
association list read by first match; Python's dict assignment is modelled by
prepending. -/
structure ResolverState where
  repository : QuotaRepository
  cache_ttl : Nat
  cache : List (String × (Option ResolvedQuota × Nat))
  domain_assignments_cache : Option (List QuotaAssignment × Nat)

/-- `self._cache[cache_key]` read (`cache_key in self._cache` + indexing). -/
def cacheLookup (c : List (String × (Option ResolvedQuota × Nat))) (k : String) :
    Option (Option ResolvedQuota × Nat) :=
  match c.find? (fun p => p.1 = k) with
  | some p => some p.2
  | none => none

/-- `self._cache[cache_key] = (resolved, utcnow())`: dict assignment,
modelled as a prepend that shadows any earlier entry for the key. -/
def cacheInsert (c : List (String × (Option ResolvedQuota × Nat))) (k : String)
    (v : Option ResolvedQuota × Nat) : List (String × (Option ResolvedQuota × Nat)) :=
  (k, v) :: c

/-- Python `f"{x}"` applied to an optional string: `None` renders as
`"None"`. -/
def pyFormatOpt : Option String → String
  | some s => s
  | none => "None"

/-- Python `x or 0` on an optional number: `None` (and a zero value, which is
falsy) yield the default `0`. -/
def pyOrZero : Option ℚ → ℚ
  | some v => if v = 0 then 0 else v
  | none => 0

/-- `QuotaResolver._get_cache_key`:
`f"{user.user_id}:{hash(frozenset(user.roles)) if user.roles else 0}"`.
`hashFn` models Python's opaque `hash` of the role frozenset. -/
def getCacheKey (hashFn : List String → Int) (user : User) : String :=
  let roles_hash : Int := if user.roles.isEmpty then 0 else hashFn user.roles
  user.user_id ++ ":" ++ toString roles_hash

/-- `QuotaResolver._override_to_tier`: `unlimited` → infinite monthly limit
with `action_on_limit = "warn"`; anything else (`custom_limit`) → explicit
limits with `monthly_cost_limit or 0` and `action_on_limit = "block"`. -/
def overrideToTier (ov : QuotaOverride) : QuotaTier :=
  if ov.override_type = "unlimited" then
    { tier_id := "override_" ++ ov.override_id
      tier_name := "Unlimited Override"
      monthly_cost_limit := .infinite
      daily_cost_limit := none
      action_on_limit := "warn"
      soft_limit_percentage := 80
      enabled := true
      created_at := ov.created_at
      updated_at := ov.created_at
      created_by := ov.created_by }
  else
    { tier_id := "override_" ++ ov.override_id
      tier_name := "Custom Override"
      monthly_cost_limit := .finite (pyOrZero ov.monthly_cost_limit)
      daily_cost_limit := ov.daily_cost_limit
      action_on_limit := "block"
      soft_limit_percentage := 80
      enabled := true
      created_at := ov.created_at
      updated_at := ov.created_at
      created_by := ov.created_by }

/-- `list.sort(key=lambda a: a.priority, reverse=True)` /
`sorted(..., key=..., reverse=True)`: a stable descending sort by priority
(equal priorities keep their original order), modelled by stable insertion
sort. -/
def insertByPriorityDesc (a : QuotaAssignment) : List QuotaAssignment → List QuotaAssignment
  | [] => [a]
  | b :: rest =>
    if b.priority ≤ a.priority then a :: b :: rest
    else b :: insertByPriorityDesc a rest

/-- See `insertByPriorityDesc`. -/
def sortByPriorityDesc : List QuotaAssignment → List QuotaAssignment
  | [] => []
  | a :: rest => insertByPriorityDesc a (sortByPriorityDesc rest)

/-- The `for assignment in role_assignments:` loop of step 3 of
`QuotaResolver._resolve_from_db`: first enabled assignment whose tier exists
and is enabled wins; otherwise keep scanning. -/
def firstRoleMatch (repo : QuotaRepository) (uid : String) :
    List QuotaAssignment → Option ResolvedQuota
  | [] => none
  | a :: rest =>
    if a.enabled then
      match repo.get_tier a.tier_id with
      | some tier =>
        if tier.enabled then
          some { user_id := uid
                 tier := tier
                 matched_by := "jwt_role:" ++ pyFormatOpt a.jwt_role
                 assignment := some a
                 override := none }
        else firstRoleMatch repo uid rest
      | none => firstRoleMatch repo uid rest
    else firstRoleMatch repo uid rest

/-- The `for assignment in sorted(domain_assignments, ...):` loop of step 4 of
`QuotaResolver._resolve_from_db`: first enabled assignment whose pattern
matches the user's domain and whose tier exists and is enabled. -/
def firstDomainMatch (rm : String → String → Bool) (repo : QuotaRepository) (uid : String)
    (user_domain : String) : List QuotaAssignment → Option ResolvedQuota
  | [] => none
  | a :: rest =>
    if a.enabled ∧ matchesEmailDomain rm user_domain (a.email_domain.getD "") then
      match repo.get_tier a.tier_id with
      | some tier =>
        if tier.enabled then
          some { user_id := uid
                 tier := tier
                 matched_by := "email_domain:" ++ pyFormatOpt a.email_domain
                 assignment := some a
                 override := none }
        else firstDomainMatch rm repo uid user_domain rest
      | none => firstDomainMatch rm repo uid user_domain rest
    else firstDomainMatch rm repo uid user_domain rest

/-- `QuotaResolver._get_cached_domain_assignments`: serve the separate
domain-assignment cache while `now - cached_at < ttl`, otherwise query
`list_assignments_by_type("email_domain", enabled_only=True)` and refresh the
cache. -/
def getCachedDomainAssignments (st : ResolverState) (now : Nat) :
    List QuotaAssignment × ResolverState :=
  match st.domain_assignments_cache with
  | some (assignments, cached_at) =>
    if now - cached_at < st.cache_ttl then (assignments, st)
    else
      let fresh := st.repository.list_assignments_by_type "email_domain" true
      (fresh, { st with domain_assignments_cache := some (fresh, now) })
  | none =>
    let fresh := st.repository.list_assignments_by_type "email_domain" true
    (fresh, { st with domain_assignments_cache := some (fresh, now) })

/-- `QuotaResolver._resolve_from_db`: the five-step priority chain — active
override, direct user assignment, JWT role assignments (merged, sorted by
priority descending), email-domain assignments (separately cached, sorted by
priority descending), default tier — with early return at the first match and
`none` when nothing is configured. -/
def resolveFromDb (rm : String → String → Bool) (st : ResolverState) (user : User)
    (now : Nat) : Option ResolvedQuota × ResolverState :=
  let repo := st.repository
  match repo.get_active_override user.user_id with
  | some override =>
    (some { user_id := user.user_id
            tier := overrideToTier override
            matched_by := "override"
            assignment := none
            override := some override }, st)
  | none =>
    let step2 : Option ResolvedQuota :=
      match repo.query_user_assignment user.user_id with
      | some ua =>
        if ua.enabled then
          match repo.get_tier ua.tier_id with
          | some tier =>
            if tier.enabled then
              some { user_id := user.user_id
                     tier := tier
                     matched_by := "direct_user"
                     assignment := some ua
                     override := none }
            else none
          | none => none
        else none
      | none => none
    match step2 with
    | some r => (some r, st)
    | none =>
      let step3 : Option ResolvedQuota :=
        if user.roles.isEmpty then none
        else
          let role_assignments := user.roles.flatMap repo.query_role_assignments
          if role_assignments.isEmpty then none
          else firstRoleMatch repo user.user_id (sortByPriorityDesc role_assignments)
      match step3 with
      | some r => (some r, st)
      | none =>
        let afterDomain : Option ResolvedQuota × ResolverState :=
          if user.email ≠ "" ∧ '@' ∈ user.email.data then
            let dres := getCachedDomainAssignments st now
            let user_domain := ((pySplit '@' user.email).getD 1 "")
            (firstDomainMatch rm repo user.user_id user_domain
              (sortByPriorityDesc dres.1), dres.2)
          else (none, st)
        match afterDomain.1 with
        | some r => (some r, afterDomain.2)
        | none =>
          let step5 : Option ResolvedQuota :=
            match repo.list_assignments_by_type "default_tier" true with
            | [] => none
            | d :: _ =>
              match repo.get_tier d.tier_id with
              | some tier =>
                if tier.enabled then
                  some { user_id := user.user_id
                         tier := tier
                         matched_by := "default_tier"
                         assignment := some d
                         override := none }
                else none
              | none => none
          (step5, afterDomain.2)

/-- `QuotaResolver.resolve_user_quota`: cache hit while
`now - cached_at < ttl` returns the cached value (possibly `None`) untouched;
otherwise resolve from the database and write the result through to the cache
stamped `now`.  The two `datetime.utcnow()` reads of one call are modelled by
the single `now`. -/
def resolveUserQuota (hashFn : List String → Int) (rm : String → String → Bool)
    (st : ResolverState) (user : User) (now : Nat) :
    Option ResolvedQuota × ResolverState :=
  let cache_key := getCacheKey hashFn user
  let hit : Option (Option ResolvedQuota) :=
    match cacheLookup st.cache cache_key with
    | some (resolved, cached_at) =>
      if now - cached_at < st.cache_ttl then some resolved else none
    | none => none
  match hit with
  | some resolved => (resolved, st)
  | none =>
    let p := resolveFromDb rm st user now
    (p.1, { p.2 with cache := cacheInsert p.2.cache cache_key (p.1, now) })

/-! ### Concrete fixtures used by witnesses and counterexamples -/

/-- A fresh, healthy turn-store. -/
def emptyTurnStore : TurnStore :=
  { messages := [], uuidMappings := [], failWrites := false, failReads := false }

/-- A turn-store whose `create_message` raises. -/
def failingTurnStore : TurnStore :=
  { messages := [], uuidMappings := [], failWrites := true, failReads := false }

/-- Turn messages of one canonical conversational turn. -/
def msgU1 : Message := { message_id := some "u1", role := "user", content := [.text "hi"] }

/-- Assistant message with a `toolUse` block (turn still open). -/
def msgA1 : Message :=
  { message_id := some "a1", role := "assistant", content := [.text "let me check", .toolUse "t1"] }

/-- The tool-result message: Strands delivers tool results as a `"user"`-role
message whose content carries `toolResult` blocks. -/
def msgT1 : Message := { message_id := some "u2", role := "user", content := [.toolResult "t1"] }

/-- Final assistant message with no `toolUse` block. -/
def msgA2 : Message := { message_id := some "a2", role := "assistant", content := [.text "answer"] }

/-- Manager holding one buffered message over a store whose write raises. -/
def c2State : ManagerState :=
  { pending_messages := [msgU1], last_message_role := some "user", batch_size := 5,
    cancelled := false, store := failingTurnStore }

/-- Manager holding one buffered message over an empty healthy store. -/
def c3State : ManagerState :=
  { pending_messages := [msgU1], last_message_role := some "user", batch_size := 5,
    cancelled := false, store := emptyTurnStore }

/-- The state `c3State` reaches after a successful flush. -/
def c3Post : ManagerState :=
  { pending_messages := [], last_message_role := some "user", batch_size := 5,
    cancelled := false,
    store := { messages := [{ role := "user", content := [.text "hi"] }],
               uuidMappings := [(1, "u1")], failWrites := false, failReads := false } }

/-- Twenty-one user messages: no turn boundary ever fires between them. -/
def c6Msgs : List Message :=
  (List.range 21).map (fun i =>
    { message_id := some (toString i), role := "user", content := [.text (toString i)] })

/-- End state of feeding `c6Msgs` into a fresh manager with `batch_size = 25`. -/
def c6EndState : ManagerState :=
  { pending_messages := c6Msgs, last_message_role := some "user", batch_size := 25,
    cancelled := false, store := emptyTurnStore }

/-- A cancelled manager with one message still buffered. -/
def c7Cancelled : ManagerState :=
  { pending_messages := [msgU1], last_message_role := some "user", batch_size := 5,
    cancelled := true, store := emptyTurnStore }

/-- The regex matcher that rejects everything (no claim under test exercises
the `regex:` branch). -/
def rmNone : String → String → Bool := fun _ _ => false

/-- A stand-in for Python's opaque `hash(frozenset(roles))`. -/
def hashZero : List String → Int := fun _ => 0

/-- Tier reached through the JWT-role assignment in the fixtures. -/
def tierStaff : QuotaTier :=
  { tier_id := "t-staff", tier_name := "Staff", monthly_cost_limit := .finite 50,
    daily_cost_limit := none, action_on_limit := "warn", soft_limit_percentage := 80,
    enabled := true, created_at := "2024-01-01", updated_at := "2024-01-01",
    created_by := "admin" }

/-- Tier reached through the email-domain assignment in the fixtures. -/
def tierDomain : QuotaTier :=
  { tier_id := "t-domain", tier_name := "Domain", monthly_cost_limit := .finite 20,
    daily_cost_limit := none, action_on_limit := "block", soft_limit_percentage := 80,
    enabled := true, created_at := "2024-01-01", updated_at := "2024-01-01",
    created_by := "admin" }

/-- Enabled JWT-role assignment, priority 200. -/
def raStaff : QuotaAssignment :=
  { assignment_type := "jwt_role", tier_id := "t-staff", priority := 200, enabled := true,
    jwt_role := some "staff", email_domain := none }

/-- Enabled email-domain assignment with a higher priority (250) than the role
assignment. -/
def daBoise : QuotaAssignment :=
  { assignment_type := "email_domain", tier_id := "t-domain", priority := 250, enabled := true,
    jwt_role := none, email_domain := some "boisestate.edu" }

/-- Repository with both a JWT-role and an email-domain assignment and no
override or direct-user assignment. -/
def repoJwt : QuotaRepository :=
  { get_active_override := fun _ => none
    query_user_assignment := fun _ => none
    query_role_assignments := fun r => if r = "staff" then [raStaff] else []
    list_assignments_by_type := fun t _ => if t = "email_domain" then [daBoise] else []
    get_tier := fun id =>
      if id = "t-staff" then some tierStaff
      else if id = "t-domain" then some tierDomain
      else none }

/-- Active `custom_limit` override with no monthly limit set. -/
def ovCustomNoLimit : QuotaOverride :=
  { override_id := "ov1", override_type := "custom_limit", monthly_cost_limit := none,
    daily_cost_limit := none, created_at := "2024-01-01", created_by := "admin" }

/-- Repository where the user has an active override. -/
def repoOverride : QuotaRepository :=
  { get_active_override := fun _ => some ovCustomNoLimit
    query_user_assignment := fun _ => none
    query_role_assignments := fun _ => []
    list_assignments_by_type := fun _ _ => []
    get_tier := fun _ => none }

/-- User matching both fixture assignments: role `staff`, email in
`boisestate.edu`. -/
def userStaff : User :=
  { email := "jdoe@boisestate.edu", user_id := "u-1", name := "J Doe",
    roles := ["staff"], picture := none }

/-- Resolver over `repoJwt` with cold caches. -/
def rsJwt : ResolverState :=
  { repository := repoJwt, cache_ttl := 300, cache := [], domain_assignments_cache := none }

/-- Resolver over `repoOverride` with cold caches. -/
def rsOverride : ResolverState :=
  { repository := repoOverride, cache_ttl := 300, cache := [], domain_assignments_cache := none }

/-- Resolver whose per-user cache holds a `None` entry for `userStaff`,
stamped at time 0. -/
def rsHit : ResolverState :=
  { repository := repoOverride, cache_ttl := 300,
    cache := [(getCacheKey hashZero userStaff, (none, 0))],
    domain_assignments_cache := none }

/-! ### Helper lemmas -/

/-- `List.any` only depends on the pointwise values of its predicate. -/
lemma list_any_ext {α : Type} (l : List α) (f g : α → Bool)
    (h : ∀ x ∈ l, f x = g x) : l.any f = l.any g := by
  induction l with
  | nil => rfl
  | cons a t ih =>
    simp only [List.any_cons]
    rw [h a (by simp), ih (fun x hx => h x (by simp [hx]))]

/-- A non-empty buffer always merges to some message. -/
lemma mergeTurnMessages_isSome (ms : List Message) (hp : ms ≠ []) :
    ∃ merged, mergeTurnMessages ms = some merged := by
  cases ms with
  | nil => exact absurd rfl hp
  | cons m rest =>
    cases rest with
    | nil => exact ⟨m, rfl⟩
    | cons m' rest' => exact ⟨_, rfl⟩

/-- A successful flush of a non-empty buffer: the merged record is appended to
the store, the buffer is cleared, and the returned sequence id is the store's
post-write record count (1-indexed). -/
lemma flushTurn_success (st : ManagerState) (hp : st.pending_messages ≠ [])
    (hw : st.store.failWrites = false) (hr : st.store.failReads = false) :
    ∃ merged st', mergeTurnMessages st.pending_messages = some merged ∧
      flushTurn st = .ok (some (st.store.messages.length + 1), st') ∧
      st'.pending_messages = [] ∧
      st'.store.messages = st.store.messages ++ [{ role := merged.role, content := merged.content }] ∧
      st'.last_message_role = st.last_message_role ∧
      st'.batch_size = st.batch_size ∧
      st'.cancelled = st.cancelled ∧
      st'.store.failWrites = false ∧
      st'.store.failReads = false := by
  obtain ⟨merged, hmerge⟩ := mergeTurnMessages_isSome st.pending_messages hp
  have hne : st.pending_messages.isEmpty = false := by
    cases h : st.pending_messages with
    | nil => exact absurd h hp
    | cons a t => rfl
  have hie : (st.store.messages ++ [({ role := merged.role, content := merged.content } : StoredMsg)]).isEmpty = false := by
    simp
  have hlen : (st.store.messages ++ [({ role := merged.role, content := merged.content } : StoredMsg)]).length = st.store.messages.length + 1 := by
    simp
  unfold flushTurn createMessage getLatestMessageId
  rw [hne, hmerge, hw]
  simp only [Bool.false_eq_true, if_false, hr, hie, hlen]
  cases htid : truthyId merged.message_id with
  | none =>
    exact ⟨merged, _, rfl, rfl, rfl, rfl, rfl, rfl, rfl, rfl, rfl⟩
  | some uuid =>
    simp only [if_pos (by omega : st.store.messages.length + 1 ≠ 0)]
    exact ⟨merged, _, rfl, rfl, rfl, rfl, rfl, rfl, rfl, rfl, rfl⟩

/-- A flush over a store whose write succeeds always returns `.ok` with the
buffer cleared, whatever the read flag. -/
lemma flushTurn_ok_writes (st : ManagerState) (hw : st.store.failWrites = false) :
    ∃ sid st', flushTurn st = .ok (sid, st') ∧ st'.pending_messages = [] ∧
      st'.batch_size = st.batch_size ∧ st'.cancelled = st.cancelled ∧
      st'.store.failWrites = false := by
  cases hpe : st.pending_messages.isEmpty with
  | true =>
    refine ⟨none, st, ?_, List.isEmpty_iff.mp hpe, rfl, rfl, hw⟩
    unfold flushTurn
    rw [hpe]
    rfl
  | false =>
    have hp : st.pending_messages ≠ [] := by
      intro h; rw [h] at hpe; simp at hpe
    obtain ⟨merged, hmerge⟩ := mergeTurnMessages_isSome st.pending_messages hp
    unfold flushTurn createMessage
    rw [hpe, hmerge, hw]
    simp only [Bool.false_eq_true, if_false]
    refine ⟨_, _, rfl, rfl, rfl, rfl, ?_⟩
    split
    · split
      · rfl
      · rfl
    · rfl

/-- A flush of a non-empty buffer over a store whose write raises propagates
the exception, leaving the whole manager state (buffer included) untouched. -/
lemma flushTurn_raise (st : ManagerState) (hp : st.pending_messages ≠ [])
    (hw : st.store.failWrites = true) : flushTurn st = .error st := by
  obtain ⟨merged, hmerge⟩ := mergeTurnMessages_isSome st.pending_messages hp
  have hne : st.pending_messages.isEmpty = false := by
    cases h : st.pending_messages with
    | nil => exact absurd h hp
    | cons a t => rfl
  unfold flushTurn createMessage
  rw [hne, hmerge, hw]
  rfl

/-- `add_message` over a store whose writes succeed always returns `.ok` and
re-establishes `len(pending) ≤ batch_size`. -/
lemma addMessage_ok (st : ManagerState) (m : Message) (hw : st.store.failWrites = false) :
    ∃ st', addMessage st m = .ok st' ∧ st'.pending_messages.length ≤ st'.batch_size ∧
      st'.batch_size = st.batch_size ∧ st'.store.failWrites = false := by
  unfold addMessage
  cases hsf : shouldFlushTurn st m with
  | false =>
    simp only [Bool.false_eq_true, if_false]
    split
    · rename_i hge
      obtain ⟨sid, st3, heq, hpend, hbs, _, hwf⟩ :=
        flushTurn_ok_writes ⟨st.pending_messages ++ [m], some m.role, st.batch_size, st.cancelled, st.store⟩ hw
      rw [heq]
      exact ⟨st3, rfl, by rw [hpend]; exact Nat.zero_le _, hbs, hwf⟩
    · rename_i hlt
      refine ⟨_, rfl, ?_, rfl, hw⟩
      simp only [List.length_append, List.length_cons, List.length_nil] at hlt ⊢
      omega
  | true =>
    obtain ⟨sid1, st1, heq1, hp1, hbs1, _, hw1⟩ := flushTurn_ok_writes st hw
    simp only [hsf, if_true, heq1]
    split
    · rename_i hge
      obtain ⟨sid, st3, heq, hpend, hbs, _, hwf⟩ :=
        flushTurn_ok_writes ⟨st1.pending_messages ++ [m], some m.role, st1.batch_size, st1.cancelled, st1.store⟩ hw1
      rw [heq]
      exact ⟨st3, rfl, by rw [hpend]; exact Nat.zero_le _, hbs.trans hbs1, hwf⟩
    · rename_i hlt
      refine ⟨_, rfl, ?_, hbs1, hw1⟩
      simp only [List.length_append, List.length_cons, List.length_nil] at hlt ⊢
      omega

/-- The buffer-size invariant is preserved over any sequence of `add_message`
calls when store writes succeed. -/
lemma addAll_ok (msgs : List Message) : ∀ (st : ManagerState), st.store.failWrites = false →
    st.pending_messages.length ≤ st.batch_size →
    ∃ st', addAll st msgs = .ok st' ∧ st'.pending_messages.length ≤ st'.batch_size ∧
      st'.batch_size = st.batch_size ∧ st'.store.failWrites = false := by
  induction msgs with
  | nil => exact fun st hw hl => ⟨st, rfl, hl, rfl, hw⟩
  | cons m rest ih =>
    intro st hw hl
    obtain ⟨st1, heq, hl1, hbs1, hw1⟩ := addMessage_ok st m hw
    obtain ⟨st2, heq2, hl2, hbs2, hw2⟩ := ih st1 hw1 hl1
    refine ⟨st2, ?_, hl2, hbs2.trans hbs1, hw2⟩
    unfold addAll
    rw [heq]
    exact heq2

/-- Elements produced by `splitCharAux` never contain the separator. -/
lemma splitCharAux_no_sep (sep : Char) : ∀ (l acc : List Char), sep ∉ acc →
    ∀ e ∈ splitCharAux sep l acc, sep ∉ e := by
  intro l
  induction l with
  | nil =>
    intro acc hacc e he
    simp only [splitCharAux, List.mem_singleton] at he
    subst he
    simpa using hacc
  | cons c cs ih =>
    intro acc hacc e he
    by_cases hc : c = sep
    · rw [splitCharAux, if_pos hc] at he
      rcases List.mem_cons.mp he with h1 | h2
      · subst h1; simpa using hacc
      · exact ih [] (by simp) e h2
    · rw [splitCharAux, if_neg hc] at he
      refine ih (c :: acc) ?_ e he
      intro hmem
      rcases List.mem_cons.mp hmem with h1 | h2
      · exact hc h1.symm
      · exact hacc h2

/-- `str.split(sep)` elements never contain the separator. -/
lemma pySplit_no_sep (sep : Char) (s : String) : ∀ e ∈ pySplit sep s, sep ∉ e.data := by
  intro e he
  unfold pySplit at he
  rcases List.mem_map.mp he with ⟨l, hl, rfl⟩
  have := splitCharAux_no_sep sep s.data [] (by simp) l hl
  simpa using this

/-- `str.strip()` only removes characters. -/
lemma pyStrip_mem (s : String) (c : Char) (h : c ∈ (pyStrip s).data) : c ∈ s.data := by
  unfold pyStrip at h
  simp only [List.asString] at h
  have h1 : c ∈ ((s.data.dropWhile Char.isWhitespace).reverse.dropWhile Char.isWhitespace).reverse := h
  have h2 := List.mem_reverse.mp h1
  have h3 := (List.dropWhile_sublist (l := (s.data.dropWhile Char.isWhitespace).reverse) Char.isWhitespace).mem h2
  have h4 := List.mem_reverse.mp h3
  exact (List.dropWhile_sublist (l := s.data) Char.isWhitespace).mem h4

/-- On a comma-free pattern the full matcher and its non-comma restriction
agree: the comma branch is unreachable, so the source's recursive call on
split elements evaluates exactly the first four branches. -/
lemma matchesEmailDomain_eq_single (rm : String → String → Bool) (ud d : String)
    (h : ',' ∉ d.data) : matchesEmailDomain rm ud d = matchesSingle rm ud d := by
  unfold matchesEmailDomain matchesSingle
  split
  · rfl
  · split
    · rfl
    · split
      · rfl
      · split
        · rfl
        · simp [h]

/-- A freshly written cache entry is the one found on the next lookup. -/
lemma cacheLookup_insert (c : List (String × (Option ResolvedQuota × Nat))) (k : String)
    (v : Option ResolvedQuota × Nat) : cacheLookup (cacheInsert c k v) k = some v := by
  unfold cacheLookup cacheInsert
  simp [List.find?]

/-! ### Claim theorems -/

/-- Claim C1 (code bug): for the canonical turn `[user, assistant+toolUse,
tool_result, assistant-without-toolUse]` fed one `add_message` at a time into
an empty manager with `batch_size = 5 > 4`, the claim says exactly one
store-write occurs, triggered by the final assistant message, merging all four
messages.  The code instead performs TWO writes: the tool-result message
(delivered by Strands as a `"user"`-role message) trips the
user-after-assistant boundary and flushes messages 1–2 as one merged record,
the final assistant message then flushes message 3 alone, and message 4 is
left sitting in the buffer — contradicting the class docstring "we create 1
merged event per turn". -/
theorem claim_C1 :
    addAll (initManager 5 emptyTurnStore) [msgU1, msgA1, msgT1, msgA2] =
      .ok { pending_messages := [msgA2], last_message_role := some "assistant", batch_size := 5,
            cancelled := false,
            store := { messages :=
                         [{ role := "user", content := [.text "hi", .text "let me check", .toolUse "t1"] },
                          { role := "user", content := [.toolResult "t1"] }],
                       uuidMappings := [(1, "u1"), (2, "u2")],
                       failWrites := false, failReads := false } } := by
  rfl

/-- Claim C2 counterexample: on a non-empty buffer whose store write raises,
`flush` does NOT catch the exception and does NOT clear the buffer — the error
escapes carrying the unchanged state, whose buffer still holds the message. -/
theorem claim_C2_counterexample :
    managerFlush c2State = .error c2State ∧ c2State.pending_messages = [msgU1] :=
  ⟨rfl, rfl⟩

/-- Claim C2 (amended): when the turn-store write raises during a flush of a
non-empty buffer, the exception propagates to the caller of `flush` (and of
`add_message`, when the flush was triggered inside it) and the pending buffer
is left exactly as it was — it is cleared only after a successful write. -/
theorem claim_C2 (st : ManagerState) (m : Message)
    (hp : st.pending_messages ≠ []) (hw : st.store.failWrites = true) :
    managerFlush st = .error st ∧
    (shouldFlushTurn st m = true → addMessage st m = .error st) := by
  have hfl := flushTurn_raise st hp hw
  refine ⟨hfl, fun hsf => ?_⟩
  unfold addMessage
  simp only [hsf, if_true, hfl]

/-- Witness for `claim_C2` at `c2State` and the boundary message `msgA2`. -/
theorem claim_C2_witness :
    (c2State.pending_messages ≠ [] ∧ c2State.store.failWrites = true) ∧
    (managerFlush c2State = .error c2State ∧
     (shouldFlushTurn c2State msgA2 = true → addMessage c2State msgA2 = .error c2State)) :=
  ⟨⟨by decide, rfl⟩, claim_C2 c2State msgA2 (by decide) rfl⟩

/-- Claim C3 counterexample: a successful flush of a one-message buffer into an
empty store returns sequence number `1`, which is the post-write message count
itself, not count − 1 = 0 as the claim states. -/
theorem claim_C3_counterexample :
    managerFlush c3State = .ok (some 1, c3Post) ∧
    c3Post.store.messages.length = 1 ∧
    some 1 ≠ some (c3Post.store.messages.length - 1) :=
  ⟨rfl, rfl, by decide⟩

/-- Claim C3 (amended): the sequence number returned by a successful flush of a
non-empty buffer is the turn-store's message count at the moment after the
write (1-indexed, per `_get_latest_message_id`'s docstring), derived from the
store's authoritative message list — not count − 1. -/
theorem claim_C3 (st : ManagerState) (hp : st.pending_messages ≠ [])
    (hw : st.store.failWrites = false) (hr : st.store.failReads = false) :
    ∃ st', managerFlush st = .ok (some (st.store.messages.length + 1), st') ∧
      st'.store.messages.length = st.store.messages.length + 1 ∧
      st'.pending_messages = [] := by
  obtain ⟨merged, st', _, heq, hpend, hmsgs, _⟩ := flushTurn_success st hp hw hr
  exact ⟨st', heq, by rw [hmsgs]; simp, hpend⟩

/-- Witness for `claim_C3` at `c3State`. -/
theorem claim_C3_witness :
    c3State.pending_messages ≠ [] ∧
    ∃ st', managerFlush c3State = .ok (some (c3State.store.messages.length + 1), st') ∧
      st'.store.messages.length = c3State.store.messages.length + 1 ∧
      st'.pending_messages = [] :=
  ⟨by decide, claim_C3 c3State (by decide) rfl rfl⟩

/-- Claim C4: the priority chain is strict — an active override always wins
with `matched_by = "override"` no matter what assignments exist, and a user
matching both an enabled JWT-role assignment (enabled tier) and an enabled
email-domain assignment (enabled tier) resolves to the JWT-role match even
when the email-domain assignment carries a strictly higher numeric
priority. -/
theorem claim_C4 (hashFn : List String → Int) (rm : String → String → Bool)
    (st st₂ : ResolverState) (user user₂ : User) (now now₂ : Nat)
    (ov : QuotaOverride) (r : String) (ra da : QuotaAssignment) (tier dtier : QuotaTier) :
    (cacheLookup st.cache (getCacheKey hashFn user) = none →
     st.repository.get_active_override user.user_id = some ov →
     (resolveUserQuota hashFn rm st user now).1 =
       some { user_id := user.user_id, tier := overrideToTier ov, matched_by := "override",
              assignment := none, override := some ov }) ∧
    (cacheLookup st₂.cache (getCacheKey hashFn user₂) = none →
     st₂.repository.get_active_override user₂.user_id = none →
     st₂.repository.query_user_assignment user₂.user_id = none →
     user₂.roles = [r] →
     st₂.repository.query_role_assignments r = [ra] →
     ra.enabled = true →
     st₂.repository.get_tier ra.tier_id = some tier →
     tier.enabled = true →
     st₂.repository.list_assignments_by_type "email_domain" true = [da] →
     da.enabled = true →
     ra.priority < da.priority →
     matchesEmailDomain rm ((pySplit '@' user₂.email).getD 1 "") (da.email_domain.getD "") = true →
     st₂.repository.get_tier da.tier_id = some dtier →
     dtier.enabled = true →
     (resolveUserQuota hashFn rm st₂ user₂ now₂).1 =
       some { user_id := user₂.user_id, tier := tier,
              matched_by := "jwt_role:" ++ pyFormatOpt ra.jwt_role,
              assignment := some ra, override := none }) := by
  constructor
  · intro hm hov
    simp only [resolveUserQuota, hm, resolveFromDb, hov]
  · intro hm h1 h2 hroles hra hen ht hte hdom hdae hdp hmatch hdt hdte
    simp only [resolveUserQuota, hm, resolveFromDb, h1, h2, hroles]
    simp only [List.isEmpty_cons, Bool.false_eq_true, if_false, List.flatMap_cons,
      List.flatMap_nil, List.append_nil, hra]
    simp only [sortByPriorityDesc, insertByPriorityDesc, firstRoleMatch, hen, ht, hte, if_true]

/-- Witness for `claim_C4`: `userStaff` over `rsOverride` (override wins) and
over `rsJwt` (role priority 200 beats domain priority 250). -/
theorem claim_C4_witness :
    (cacheLookup rsOverride.cache (getCacheKey hashZero userStaff) = none ∧
     rsOverride.repository.get_active_override userStaff.user_id = some ovCustomNoLimit ∧
     cacheLookup rsJwt.cache (getCacheKey hashZero userStaff) = none ∧
     rsJwt.repository.get_active_override userStaff.user_id = none ∧
     rsJwt.repository.query_user_assignment userStaff.user_id = none ∧
     userStaff.roles = ["staff"] ∧
     rsJwt.repository.query_role_assignments "staff" = [raStaff] ∧
     raStaff.enabled = true ∧
     rsJwt.repository.get_tier raStaff.tier_id = some tierStaff ∧
     tierStaff.enabled = true ∧
     rsJwt.repository.list_assignments_by_type "email_domain" true = [daBoise] ∧
     daBoise.enabled = true ∧
     raStaff.priority < daBoise.priority ∧
     matchesEmailDomain rmNone ((pySplit '@' userStaff.email).getD 1 "") (daBoise.email_domain.getD "") = true ∧
     rsJwt.repository.get_tier daBoise.tier_id = some tierDomain ∧
     tierDomain.enabled = true) ∧
    ((resolveUserQuota hashZero rmNone rsOverride userStaff 0).1 =
       some { user_id := userStaff.user_id, tier := overrideToTier ovCustomNoLimit,
              matched_by := "override", assignment := none, override := some ovCustomNoLimit } ∧
     (resolveUserQuota hashZero rmNone rsJwt userStaff 0).1 =
       some { user_id := userStaff.user_id, tier := tierStaff,
              matched_by := "jwt_role:" ++ pyFormatOpt raStaff.jwt_role,
              assignment := some raStaff, override := none }) :=
  ⟨⟨rfl, rfl, rfl, rfl, rfl, rfl, rfl, rfl, rfl, rfl, rfl, rfl, by decide, by decide, rfl, rfl⟩,
   (claim_C4 hashZero rmNone rsOverride rsJwt userStaff userStaff 0 0 ovCustomNoLimit "staff"
      raStaff daBoise tierStaff tierDomain).1 rfl rfl,
   (claim_C4 hashZero rmNone rsOverride rsJwt userStaff userStaff 0 0 ovCustomNoLimit "staff"
      raStaff daBoise tierStaff tierDomain).2 rfl rfl rfl rfl rfl rfl rfl rfl rfl rfl
      (by decide) (by decide) rfl rfl⟩

/-- Claim C5: every `resolve_user_quota` call leaves its result (including
`None`) in the cache under the user's key; a second call strictly within the
TTL returns the cached value with the resolver state untouched and without
consulting the quota store (the result is the same under any repository); a
call at or after TTL expiry performs a fresh full-chain store resolution and
re-caches it stamped with the current time. -/
theorem claim_C5 (hashFn : List String → Int) (rm : String → String → Bool)
    (st st₂ st₃ : ResolverState) (user user₂ user₃ : User) (now now₂ now₃ t₂ t₃ : Nat)
    (v₂ v₃ : Option ResolvedQuota) (repo' : QuotaRepository) :
    (∃ t, cacheLookup (resolveUserQuota hashFn rm st user now).2.cache (getCacheKey hashFn user) =
        some ((resolveUserQuota hashFn rm st user now).1, t)) ∧
    (cacheLookup st₂.cache (getCacheKey hashFn user₂) = some (v₂, t₂) →
     now₂ - t₂ < st₂.cache_ttl →
     resolveUserQuota hashFn rm st₂ user₂ now₂ = (v₂, st₂) ∧
     resolveUserQuota hashFn rm { st₂ with repository := repo' } user₂ now₂ =
       (v₂, { st₂ with repository := repo' })) ∧
    (cacheLookup st₃.cache (getCacheKey hashFn user₃) = some (v₃, t₃) →
     ¬ (now₃ - t₃ < st₃.cache_ttl) →
     resolveUserQuota hashFn rm st₃ user₃ now₃ =
       ((resolveFromDb rm st₃ user₃ now₃).1,
        { (resolveFromDb rm st₃ user₃ now₃).2 with
          cache := cacheInsert (resolveFromDb rm st₃ user₃ now₃).2.cache
            (getCacheKey hashFn user₃) ((resolveFromDb rm st₃ user₃ now₃).1, now₃) })) := by
  refine ⟨?_, ?_, ?_⟩
  · cases hlk : cacheLookup st.cache (getCacheKey hashFn user) with
    | none =>
      simp only [resolveUserQuota, hlk]
      exact ⟨now, cacheLookup_insert _ _ _⟩
    | some p =>
      obtain ⟨v, t0⟩ := p
      by_cases htl : now - t0 < st.cache_ttl
      · simp only [resolveUserQuota, hlk, if_pos htl]
        exact ⟨t0, rfl⟩
      · simp only [resolveUserQuota, hlk, if_neg htl]
        exact ⟨now, cacheLookup_insert _ _ _⟩
  · intro hlk htl
    constructor
    · simp only [resolveUserQuota, hlk, if_pos htl]
    · simp only [resolveUserQuota, hlk, if_pos htl]
  · intro hlk htl
    simp only [resolveUserQuota, hlk, if_neg htl]

/-- Witness for `claim_C5`: a cold resolver (`rsJwt`), a cached-`None` hit at
100s of a 300s TTL, and an expired entry at 301s. -/
theorem claim_C5_witness :
    (cacheLookup rsHit.cache (getCacheKey hashZero userStaff) = some (none, 0) ∧
     100 - 0 < rsHit.cache_ttl ∧ ¬ (301 - 0 < rsHit.cache_ttl)) ∧
    (∃ t, cacheLookup (resolveUserQuota hashZero rmNone rsJwt userStaff 0).2.cache
        (getCacheKey hashZero userStaff) =
        some ((resolveUserQuota hashZero rmNone rsJwt userStaff 0).1, t)) ∧
    (resolveUserQuota hashZero rmNone rsHit userStaff 100 = (none, rsHit) ∧
     resolveUserQuota hashZero rmNone { rsHit with repository := repoJwt } userStaff 100 =
       (none, { rsHit with repository := repoJwt })) ∧
    (resolveUserQuota hashZero rmNone rsHit userStaff 301 =
       ((resolveFromDb rmNone rsHit userStaff 301).1,
        { (resolveFromDb rmNone rsHit userStaff 301).2 with
          cache := cacheInsert (resolveFromDb rmNone rsHit userStaff 301).2.cache
            (getCacheKey hashZero userStaff) ((resolveFromDb rmNone rsHit userStaff 301).1, 301) })) :=
  have h := claim_C5 hashZero rmNone rsJwt rsHit rsHit userStaff userStaff userStaff
    0 100 301 0 0 none none repoJwt
  ⟨⟨rfl, by decide, by decide⟩, h.1, h.2.1 rfl (by decide), h.2.2 rfl (by decide)⟩

/-- Claim C6 counterexample: there is no `max_buffer_size` in the code.  With
`batch_size = 25`, feeding 21 boundary-free user messages leaves 21 messages
buffered — above the claimed hard cap of 20 — with zero store writes and no
forced flush. -/
theorem claim_C6_counterexample :
    addAll (initManager 25 emptyTurnStore) c6Msgs = .ok c6EndState ∧
    c6EndState.pending_messages.length = 21 ∧
    ¬ (c6EndState.pending_messages.length ≤ 20) ∧
    c6EndState.store.messages = [] := by
  refine ⟨?_, ?_, ?_, rfl⟩
  · rfl
  · rfl
  · decide

/-- Claim C6 (amended): the manager has no `max_buffer_size`; the only
size-triggered flush is the one at `batch_size` (default 5).  For every
`batch_size` and every sequence of `add_message` calls with store writes
succeeding, `len(pending_messages) ≤ batch_size` holds after every call. -/
theorem claim_C6 (bs : Nat) (store0 : TurnStore) (msgs : List Message)
    (hw : store0.failWrites = false) :
    ∃ st', addAll (initManager bs store0) msgs = .ok st' ∧
      st'.pending_messages.length ≤ bs := by
  obtain ⟨st', heq, hl, hbs, _⟩ :=
    addAll_ok msgs (initManager bs store0) hw (by simp [initManager])
  have hbs' : st'.batch_size = bs := hbs
  exact ⟨st', heq, hbs' ▸ hl⟩

/-- Witness for `claim_C6` at `batch_size = 25` over the 21-message run. -/
theorem claim_C6_witness :
    emptyTurnStore.failWrites = false ∧
    ∃ st', addAll (initManager 25 emptyTurnStore) c6Msgs = .ok st' ∧
      st'.pending_messages.length ≤ 25 :=
  ⟨rfl, claim_C6 25 emptyTurnStore c6Msgs rfl⟩

/-- Claim C7: once `cancelled` is set, `append_message` (the intake path the
Strands framework calls) returns with the manager state — buffer and store —
completely unchanged; an explicit `flush()` after cancellation still merges
and writes whatever was buffered before cancellation and clears the buffer. -/
theorem claim_C7 (st st₂ : ManagerState) (role : String) (content : List ContentBlock)
    (mid : Option String) (h : st.cancelled = true) (h₂ : st₂.cancelled = true)
    (hp : st₂.pending_messages ≠ []) (hw : st₂.store.failWrites = false)
    (hr : st₂.store.failReads = false) :
    appendMessage st role content mid = .ok st ∧
    ∃ merged st', mergeTurnMessages st₂.pending_messages = some merged ∧
      managerFlush st₂ = .ok (some (st₂.store.messages.length + 1), st') ∧
      st'.pending_messages = [] ∧
      st'.store.messages = st₂.store.messages ++ [{ role := merged.role, content := merged.content }] := by
  constructor
  · unfold appendMessage
    rw [h]
    rfl
  · obtain ⟨merged, st', hm, heq, hpend, hmsgs, _⟩ := flushTurn_success st₂ hp hw hr
    exact ⟨merged, st', hm, heq, hpend, hmsgs⟩

/-- Witness for `claim_C7` at the cancelled manager `c7Cancelled`. -/
theorem claim_C7_witness :
    (c7Cancelled.cancelled = true ∧ c7Cancelled.pending_messages ≠ []) ∧
    (appendMessage c7Cancelled "assistant" [.text "late"] none = .ok c7Cancelled ∧
     ∃ merged st', mergeTurnMessages c7Cancelled.pending_messages = some merged ∧
       managerFlush c7Cancelled = .ok (some (c7Cancelled.store.messages.length + 1), st') ∧
       st'.pending_messages = [] ∧
       st'.store.messages = c7Cancelled.store.messages ++ [{ role := merged.role, content := merged.content }]) :=
  ⟨⟨rfl, by decide⟩,
   claim_C7 c7Cancelled c7Cancelled "assistant" [.text "late"] none rfl rfl (by decide) rfl rfl⟩

/-- Claim C9: the two buffer implementations are not write-equivalent for any
buffer of two or more messages — `LocalSessionBuffer.flush` issues one
base-manager write per buffered message, each carrying that message's own role
and content, while `TurnBasedSessionManager._flush_turn` writes a single
merged record, so the resulting write sequences always differ. -/
theorem claim_C9 (lst : LocalBufferState) (tst : ManagerState) (ms : List Message)
    (hl : lst.pending_messages = ms) (ht : tst.pending_messages = ms)
    (hw : tst.store.failWrites = false) (hr : tst.store.failReads = false)
    (h2 : 2 ≤ ms.length) :
    (localFlush lst).2.store = lst.store ++ ms.map (fun m => { role := m.role, content := m.content }) ∧
    (localFlush lst).2.pending_messages = [] ∧
    ∃ merged st', mergeTurnMessages ms = some merged ∧
      managerFlush tst = .ok (some (tst.store.messages.length + 1), st') ∧
      st'.store.messages = tst.store.messages ++ [{ role := merged.role, content := merged.content }] ∧
      ms.map (fun m => ({ role := m.role, content := m.content } : StoredMsg)) ≠
        [{ role := merged.role, content := merged.content }] := by
  have hnil : ms ≠ [] := by
    intro h; rw [h] at h2; simp at h2
  have hie : lst.pending_messages.isEmpty = false := by
    rw [hl]
    cases h : ms with
    | nil => exact absurd h hnil
    | cons a t => rfl
  refine ⟨?_, ?_, ?_⟩
  · unfold localFlush
    rw [hie, hl]
    rfl
  · unfold localFlush
    rw [hie]
    rfl
  · obtain ⟨merged, st', hm, heq, hpend, hmsgs, _⟩ :=
      flushTurn_success tst (by rw [ht]; exact hnil) hw hr
    rw [ht] at hm
    refine ⟨merged, st', hm, heq, hmsgs, ?_⟩
    intro hcontra
    have := congrArg List.length hcontra
    simp only [List.length_map, List.length_cons, List.length_nil] at this
    omega

/-- Witness for `claim_C9` on the two-message buffer `[msgU1, msgA2]`. -/
theorem claim_C9_witness :
    (2 ≤ ([msgU1, msgA2] : List Message).length) ∧
    ((localFlush { pending_messages := [msgU1, msgA2], cancelled := false, batch_size := 5, store := [] }).2.store =
       [] ++ [msgU1, msgA2].map (fun m => { role := m.role, content := m.content }) ∧
     (localFlush { pending_messages := [msgU1, msgA2], cancelled := false, batch_size := 5, store := [] }).2.pending_messages = [] ∧
     ∃ merged st', mergeTurnMessages [msgU1, msgA2] = some merged ∧
       managerFlush { pending_messages := [msgU1, msgA2], last_message_role := some "assistant",
                      batch_size := 5, cancelled := false, store := emptyTurnStore } =
         .ok (some (emptyTurnStore.messages.length + 1), st') ∧
       st'.store.messages = emptyTurnStore.messages ++ [{ role := merged.role, content := merged.content }] ∧
       [msgU1, msgA2].map (fun m => ({ role := m.role, content := m.content } : StoredMsg)) ≠
         [{ role := merged.role, content := merged.content }]) :=
  ⟨by decide,
   claim_C9 { pending_messages := [msgU1, msgA2], cancelled := false, batch_size := 5, store := [] }
     { pending_messages := [msgU1, msgA2], last_message_role := some "assistant",
       batch_size := 5, cancelled := false, store := emptyTurnStore }
     [msgU1, msgA2] rfl rfl rfl rfl (by decide)⟩

/-- Claim C8 counterexample: a comma-separated pattern whose first element is a
wildcard never reaches the comma branch — the `*.` branch returns early — so
`matches("b.com", "*.a.com,b.com")` is false even though the split element
`"b.com"` matches exactly. -/
theorem claim_C8_counterexample :
    matchesEmailDomain rmNone "b.com" "*.a.com,b.com" = false ∧
    ((pySplit ',' "*.a.com,b.com").map pyStrip).any (fun d => matchesEmailDomain rmNone "b.com" d) = true :=
  ⟨by decide, by decide⟩

/-- Claim C8 (amended): for a pattern containing a comma that is not exactly
equal to the user's domain and does not start with `*.` or `regex:` (the
earlier branches, which return before the comma branch is reached), the
matcher returns true iff at least one whitespace-stripped element of the
comma-split pattern matches under the full pattern grammar, via a recursive
call per element. -/
theorem claim_C8 (rm : String → String → Bool) (ud p : String)
    (hc : ',' ∈ p.data) (hne : p ≠ ud)
    (hwild : ¬ pyStartsWith p "*." = true) (hregex : ¬ pyStartsWith p "regex:" = true) :
    matchesEmailDomain rm ud p =
      ((pySplit ',' p).map pyStrip).any (fun d => matchesEmailDomain rm ud d) := by
  have h0 : ¬ (p = "") := by
    intro h
    subst h
    exact absurd hc (by decide)
  conv_lhs => unfold matchesEmailDomain
  rw [if_neg h0, if_neg hne, if_neg hwild, if_neg hregex, if_pos hc]
  refine list_any_ext _ _ _ (fun d hd => ?_)
  have hdmem : ',' ∉ d.data := by
    rcases List.mem_map.mp hd with ⟨e, he, rfl⟩
    intro hcm
    exact pySplit_no_sep ',' p e he (pyStrip_mem e ',' hcm)
  exact (matchesEmailDomain_eq_single rm ud d hdmem).symm

/-- Witness for `claim_C8` on the list pattern `" a.com , b.com"`. -/
theorem claim_C8_witness :
    (',' ∈ (" a.com , b.com" : String).data ∧ (" a.com , b.com" : String) ≠ "b.com" ∧
     ¬ pyStartsWith " a.com , b.com" "*." = true ∧
     ¬ pyStartsWith " a.com , b.com" "regex:" = true) ∧
    matchesEmailDomain rmNone "b.com" " a.com , b.com" =
      ((pySplit ',' " a.com , b.com").map pyStrip).any (fun d => matchesEmailDomain rmNone "b.com" d) :=
  ⟨⟨by decide, by decide, by decide, by decide⟩,
   claim_C8 rmNone "b.com" " a.com , b.com" (by decide) (by decide) (by decide) (by decide)⟩

/-- Claim C10: an active `custom_limit` override with no `monthly_cost_limit`
resolves (on a cache miss) to `matched_by = "override"` with a synthesized
tier whose monthly limit is 0 — the most restrictive value, not unlimited —
with `action_on_limit = "block"`, `soft_limit_percentage = 80.0` and
`enabled = true`. -/
theorem claim_C10 (hashFn : List String → Int) (rm : String → String → Bool)
    (st : ResolverState) (user : User) (now : Nat) (ov : QuotaOverride)
    (hm : cacheLookup st.cache (getCacheKey hashFn user) = none)
    (hov : st.repository.get_active_override user.user_id = some ov)
    (hty : ov.override_type = "custom_limit")
    (hmo : ov.monthly_cost_limit = none) :
    (resolveUserQuota hashFn rm st user now).1 =
      some { user_id := user.user_id, tier := overrideToTier ov, matched_by := "override",
             assignment := none, override := some ov } ∧
    (overrideToTier ov).monthly_cost_limit = .finite 0 ∧
    (overrideToTier ov).action_on_limit = "block" ∧
    (overrideToTier ov).soft_limit_percentage = 80 ∧
    (overrideToTier ov).enabled = true := by
  have htier : overrideToTier ov =
      { tier_id := "override_" ++ ov.override_id
        tier_name := "Custom Override"
        monthly_cost_limit := .finite (pyOrZero ov.monthly_cost_limit)
        daily_cost_limit := ov.daily_cost_limit
        action_on_limit := "block"
        soft_limit_percentage := 80
        enabled := true
        created_at := ov.created_at
        updated_at := ov.created_at
        created_by := ov.created_by } := by
    unfold overrideToTier
    rw [hty]
    rw [if_neg (by decide : ¬ ("custom_limit" = "unlimited"))]
  refine ⟨?_, ?_, ?_, ?_, ?_⟩
  · simp only [resolveUserQuota, hm, resolveFromDb, hov]
  · rw [htier, hmo]; rfl
  · rw [htier]
  · rw [htier]
  · rw [htier]

/-- Witness for `claim_C10` at `ovCustomNoLimit` over `rsOverride`. -/
theorem claim_C10_witness :
    (cacheLookup rsOverride.cache (getCacheKey hashZero userStaff) = none ∧
     rsOverride.repository.get_active_override userStaff.user_id = some ovCustomNoLimit ∧
     ovCustomNoLimit.override_type = "custom_limit" ∧
     ovCustomNoLimit.monthly_cost_limit = none) ∧
    ((resolveUserQuota hashZero rmNone rsOverride userStaff 0).1 =
       some { user_id := userStaff.user_id, tier := overrideToTier ovCustomNoLimit,
              matched_by := "override", assignment := none, override := some ovCustomNoLimit } ∧
     (overrideToTier ovCustomNoLimit).monthly_cost_limit = .finite 0 ∧
     (overrideToTier ovCustomNoLimit).action_on_limit = "block" ∧
     (overrideToTier ovCustomNoLimit).soft_limit_percentage = 80 ∧
     (overrideToTier ovCustomNoLimit).enabled = true) :=
  ⟨⟨rfl, rfl, rfl, rfl⟩, claim_C10 hashZero rmNone rsOverride userStaff 0 ovCustomNoLimit rfl rfl rfl rfl⟩
